import Mathlib

/-!
Shallow embedding of the client state controller in `src/public/script.js`
(class `NotesApp`): the in-memory note list, the editor view state, and the
operations `loadNotes`, `searchNotes`, `selectNote`, `createNewNote`,
`saveNote`, `deleteNote`, `cancelEdit`, `renderNotesList`, together with the
debounced auto-save timer from `bindEvents` as a small event-step semantics.

Network and DOM effects are made explicit: each operation returns the new
state, the list of notes it rendered, the rendered items, the HTTP requests it
issued, and the notifications it showed.  Timestamps (`createdAt`/`updatedAt`)
are modelled as naturals ordered as the `Date` values the code compares.
-/

/-- A note record as served by the API: id, title, content and the two
timestamps (`script.js` compares them via `new Date(...)`; we model them as
naturals with the same order). -/
structure Note where
  id : String
  title : String
  content : String
  createdAt : Nat
  updatedAt : Nat
deriving Repr, DecidableEq

/-- The mutable fields of the `NotesApp` instance together with the DOM state
the code reads and writes: `this.notes`, `this.currentNote`, `this.isEditing`,
the two editor input values, and the visibility of the form, the empty
placeholder and the delete button. -/
structure AppState where
  notes : List Note
  currentNote : Option Note
  isEditing : Bool
  titleField : String
  contentField : String
  formVisible : Bool
  emptyVisible : Bool
  deleteBtnVisible : Bool
deriving Repr, DecidableEq

/-- The editor view-state of the spec, derived from the pair
(`currentNote`, `isEditing`) that `script.js` keeps. -/
inductive EditorMode where
  | closed
  | creating
  | editing (n : Note)
deriving Repr, DecidableEq

/-- Derive the spec's `EditorState` from the code's two fields:
`Editing(note)` when both are set, `Creating` when only the flag is set,
`Closed` otherwise. -/
def AppState.mode (st : AppState) : EditorMode :=
  match st.currentNote, st.isEditing with
  | some n, true => .editing n
  | none, true => .creating
  | _, false => .closed

/-- An HTTP request the client can issue (`fetch` calls in `script.js`). -/
inductive NetRequest where
  | getNotes
  | postNote (title content : String)
  | putNote (id title content : String)
  | delNote (id : String)
deriving Repr, DecidableEq

/-- A transient on-screen message produced by `showSuccess` / `showError`. -/
inductive Notif where
  | success (msg : String)
  | error (msg : String)
deriving Repr, DecidableEq

/-- Outcome of a save request: the server echoes the saved note, or the fetch
rejects / returns a non-ok status (both reach the same `catch`). -/
inductive ServerResp where
  | ok (savedNote : Note)
  | fail
deriving Repr, DecidableEq

/-- Outcome of the startup `GET /api/notes`: the fetch rejects, or a response
arrives with an ok flag and a body that `response.json()` either parses as a
note list or fails to parse. -/
inductive FetchResult where
  | rejected
  | response (ok : Bool) (body : Option (List Note))
deriving Repr, DecidableEq

/-- One entry of the rendered sidebar list: `data-id`, the escaped title, the
escaped truncated preview, and whether the `active` class is present. -/
structure RenderedItem where
  noteId : String
  titleHtml : String
  previewHtml : String
  active : Bool
deriving Repr, DecidableEq

/-- Result of one operation: the new state, the sequence of notes rendered by
the operation (empty when it did not re-render), the rendered items, the HTTP
requests issued, and the notifications shown. -/
structure OpResult where
  state : AppState
  shown : List Note
  items : List RenderedItem
  requests : List NetRequest
  notifs : List Notif
deriving Repr, DecidableEq

/-- Escape one character the way the DOM `textContent`/`innerHTML` round trip
in `escapeHtml` does: the HTML-significant characters become entities. -/
def escapeChar (c : Char) : String :=
  if c = '&' then "&amp;"
  else if c = '<' then "&lt;"
  else if c = '>' then "&gt;"
  else String.singleton c

/-- The `escapeHtml` utility: escape every character of the string. -/
def escapeHtml (s : String) : String :=
  String.join (s.toList.map escapeChar)

/-- Comparator of `renderNotesList`: `new Date(b.updatedAt) - new Date(a.updatedAt)`
sorts by `updatedAt` descending, keeping equal keys in order (`Array.sort` is
stable). -/
def noteLe (a b : Note) : Bool :=
  decide (b.updatedAt ≤ a.updatedAt)

/-- The in-place stable sort `notesToRender.sort(...)` of `renderNotesList`. -/
def sortNotes (l : List Note) : List Note :=
  l.mergeSort noteLe

/-- Case-insensitive containment `hay.toLowerCase().includes(q.toLowerCase())`
used by `searchNotes`. -/
def includesCI (hay q : String) : Bool :=
  decide (q.toLower.toList <:+: hay.toLower.toList)

/-- One sidebar entry as produced by the template literal in
`renderNotesList`: escaped title, escaped 100-character preview with an
ellipsis marker exactly when the content is longer, and the `active` class
when `this.currentNote?.id === note.id`. -/
def renderItem (cur : Option Note) (n : Note) : RenderedItem :=
  { noteId := n.id
    titleHtml := escapeHtml n.title
    previewHtml :=
      escapeHtml ⟨n.content.data.take 100⟩ ++
        (if 100 < n.content.length then "..." else "")
    active := match cur with
      | some c => c.id = n.id
      | none => false }

/-- The `renderNotesList(filteredNotes = null)` method: render `filteredNotes`
when given, else `this.notes`; an empty list renders the "No notes found"
placeholder and returns early; otherwise the array is sorted in place (so with
no argument `this.notes` itself ends up sorted) and mapped to items.  Returns
the new state, the sorted sequence of rendered notes, and the items. -/
def renderNotesList (st : AppState) (filtered : Option (List Note)) :
    AppState × List Note × List RenderedItem :=
  let notesToRender := filtered.getD st.notes
  if notesToRender.isEmpty then
    (st, [], [])
  else
    let sorted := sortNotes notesToRender
    let st2 := match filtered with
      | none => { st with notes := sorted }
      | some _ => st
    (st2, sorted, sorted.map (renderItem st.currentNote))

/-- The `hideNoteEditor` method. -/
def hideNoteEditor (st : AppState) : AppState :=
  { st with emptyVisible := true, formVisible := false,
            isEditing := false, currentNote := none }

/-- The `showNoteEditor` method. -/
def showNoteEditor (st : AppState) : AppState :=
  { st with emptyVisible := false, formVisible := true }

/-- The `populateEditor(note)` method (the metadata line is not modelled). -/
def populateEditor (st : AppState) (n : Note) : AppState :=
  { st with titleField := n.title, contentField := n.content,
            deleteBtnVisible := true }

/-- The `clearEditor` method. -/
def clearEditor (st : AppState) : AppState :=
  { st with titleField := "", contentField := "", deleteBtnVisible := false }

/-- Replace the first note whose id matches, as `findIndex` plus element
assignment do in `saveNote`; when no index matches (`findIndex` gives `-1`)
the array's elements are unchanged. -/
def updateById : List Note → String → Note → List Note
  | [], _, _ => []
  | n :: rest, targetId, newNote =>
    if n.id = targetId then newNote :: rest
    else n :: updateById rest targetId newNote

/-- An operation that touches nothing: early returns in `script.js`. -/
def noopResult (st : AppState) : OpResult :=
  { state := st, shown := [], items := [], requests := [], notifs := [] }

/-- The `loadNotes` method: issue `GET /api/notes`; `this.notes` is assigned
the parsed body and the list re-rendered.  The code never consults
`response.ok` here: only a rejected fetch or a body that fails to parse reach
the `catch` that shows "Failed to load notes". -/
def loadNotes (st : AppState) (r : FetchResult) : OpResult :=
  match r with
  | .rejected =>
    { state := st, shown := [], items := [], requests := [.getNotes],
      notifs := [.error "Failed to load notes"] }
  | .response _ none =>
    { state := st, shown := [], items := [], requests := [.getNotes],
      notifs := [.error "Failed to load notes"] }
  | .response _ (some parsed) =>
    let st1 := { st with notes := parsed }
    let r := renderNotesList st1 none
    { state := r.1, shown := r.2.1, items := r.2.2, requests := [.getNotes],
      notifs := [] }

/-- The `searchNotes(query)` method: blank query (after trim) re-renders the
full list; otherwise the list is filtered by case-insensitive containment of
the raw query in title or content and the filtered copy rendered.  No fetch
is issued. -/
def searchNotes (st : AppState) (q : String) : OpResult :=
  if q.trim = "" then
    let r := renderNotesList st none
    { state := r.1, shown := r.2.1, items := r.2.2, requests := [], notifs := [] }
  else
    let filtered := st.notes.filter
      (fun n => includesCI n.title q || includesCI n.content q)
    let r := renderNotesList st (some filtered)
    { state := r.1, shown := r.2.1, items := r.2.2, requests := [], notifs := [] }

/-- The `selectNote(noteId)` method: absent id is a no-op; otherwise bind the
note, show and populate the editor, and re-render the list. -/
def selectNote (st : AppState) (noteId : String) : OpResult :=
  match st.notes.find? (fun n => n.id = noteId) with
  | none => noopResult st
  | some note =>
    let st1 := { st with currentNote := some note, isEditing := true }
    let st2 := populateEditor (showNoteEditor st1) note
    let r := renderNotesList st2 none
    { state := r.1, shown := r.2.1, items := r.2.2, requests := [], notifs := [] }

/-- The `createNewNote` method. -/
def createNewNote (st : AppState) : OpResult :=
  let st1 := { st with currentNote := none, isEditing := true }
  noopResult (clearEditor (showNoteEditor st1))

/-- The `saveNote(silent = false)` method: trim the two fields; when either is
empty report a validation error unless silent and issue no request; otherwise
issue `PUT /api/notes/{id}` when a note is bound, else `POST /api/notes`.  On
success replace (by the bound id) or append the returned note, bind it, and
re-render; on failure leave the state unchanged. -/
def saveNote (st : AppState) (silent : Bool) (resp : ServerResp) : OpResult :=
  let title := st.titleField.trim
  let content := st.contentField.trim
  if title = "" ∨ content = "" then
    { state := st, shown := [], items := [], requests := [],
      notifs := if silent then [] else [.error "Title and content are required"] }
  else
    let req : NetRequest :=
      match st.currentNote with
      | some cur => .putNote cur.id title content
      | none => .postNote title content
    match resp with
    | .fail =>
      { state := st, shown := [], items := [], requests := [req],
        notifs := if silent then [] else [.error "Failed to save note"] }
    | .ok savedNote =>
      let notes1 :=
        match st.currentNote with
        | some cur => updateById st.notes cur.id savedNote
        | none => st.notes ++ [savedNote]
      let st1 := { st with notes := notes1, currentNote := some savedNote }
      let r := renderNotesList st1 none
      { state := { r.1 with deleteBtnVisible := true }, shown := r.2.1,
        items := r.2.2, requests := [req],
        notifs := if silent then [] else [.success "Note saved successfully"] }

/-- The `deleteNote` method: no bound note is a no-op; a declined confirmation
is a no-op; otherwise issue `DELETE /api/notes/{id}`; on success drop every
note with the bound id, re-render, and hide the editor; on failure leave the
state unchanged. -/
def deleteNote (st : AppState) (confirmOk : Bool) (respOk : Bool) : OpResult :=
  match st.currentNote with
  | none => noopResult st
  | some cur =>
    if confirmOk = false then
      noopResult st
    else if respOk = false then
      { state := st, shown := [], items := [], requests := [.delNote cur.id],
        notifs := [.error "Failed to delete note"] }
    else
      let st1 := { st with notes := st.notes.filter (fun n => decide ¬(n.id = cur.id)) }
      let r := renderNotesList st1 none
      { state := hideNoteEditor r.1, shown := r.2.1, items := r.2.2,
        requests := [.delNote cur.id],
        notifs := [.success "Note deleted successfully"] }

/-- The `cancelEdit` method: with a bound note, repopulate the editor from it;
otherwise hide the editor. -/
def cancelEdit (st : AppState) : OpResult :=
  match st.currentNote with
  | some n => noopResult (populateEditor st n)
  | none => noopResult (hideNoteEditor st)

/-- The state the constructor builds before `loadNotes` runs: empty list, no
bound note, not editing, empty fields, the empty placeholder shown. -/
def initialState : AppState :=
  { notes := [], currentNote := none, isEditing := false,
    titleField := "", contentField := "",
    formVisible := false, emptyVisible := true, deleteBtnVisible := false }

/-! ### Event-step semantics for the debounced auto-save

`bindEvents` installs a single `saveTimeout` slot: every `input` event on the
title or content field clears it and arms a fresh 2-second timer; when the
timer fires it calls `saveNote(true)` only if `this.isEditing &&
this.currentNote` holds at that moment.  We model wall time in one-second
ticks: an armed timer holds the number of remaining ticks and fires on the
tick that exhausts it. -/

/-- Record of one `saveNote` invocation: the silent flag and the field values
read at the moment of the call. -/
structure SaveCall where
  silent : Bool
  title : String
  content : String
deriving Repr, DecidableEq

/-- The app state together with the `saveTimeout` slot and a log of all
`saveNote` invocations. -/
structure SysState where
  app : AppState
  timer : Option Nat
  calls : List SaveCall
deriving Repr, DecidableEq

/-- User and timer events.  `tick` is one second of wall time; the server
response it carries is consumed only when the auto-save timer fires and
actually issues a request. -/
inductive Event where
  | editTitle (s : String)
  | editContent (s : String)
  | tick (resp : ServerResp)
  | clickSave (resp : ServerResp)
  | clickNew
  | clickSelect (noteId : String)
  | clickDelete (confirmOk respOk : Bool)
  | clickCancel
deriving Repr, DecidableEq

/-- The `autoSave` closure of `bindEvents`: `clearTimeout` then
`setTimeout(..., 2000)` — the single slot is overwritten with a fresh
2-second timer. -/
def restartTimer (sys : SysState) : SysState :=
  { sys with timer := some 2 }

/-- One event step of the client. -/
def step (sys : SysState) (ev : Event) : SysState :=
  match ev with
  | .editTitle s =>
    restartTimer { sys with app := { sys.app with titleField := s } }
  | .editContent s =>
    restartTimer { sys with app := { sys.app with contentField := s } }
  | .tick resp =>
    match sys.timer with
    | none => sys
    | some n =>
      if n ≤ 1 then
        let sys1 := { sys with timer := none }
        if sys1.app.isEditing && sys1.app.currentNote.isSome then
          { sys1 with
            app := (saveNote sys1.app true resp).state,
            calls := sys1.calls ++
              [{ silent := true, title := sys1.app.titleField,
                 content := sys1.app.contentField }] }
        else sys1
      else { sys with timer := some (n - 1) }
  | .clickSave resp =>
    { sys with
      app := (saveNote sys.app false resp).state,
      calls := sys.calls ++
        [{ silent := false, title := sys.app.titleField,
           content := sys.app.contentField }] }
  | .clickNew => { sys with app := (createNewNote sys.app).state }
  | .clickSelect noteId => { sys with app := (selectNote sys.app noteId).state }
  | .clickDelete c r => { sys with app := (deleteNote sys.app c r).state }
  | .clickCancel => { sys with app := (cancelEdit sys.app).state }

/-- Run a sequence of events. -/
def runTrace (sys : SysState) (evs : List Event) : SysState :=
  evs.foldl step sys

/-- The system state at startup (timer slot empty, no calls yet). -/
def initialSys : SysState :=
  { app := initialState, timer := none, calls := [] }

/-! ### Helper lemmas -/

theorem str_append_empty (s : String) : s ++ "" = s := by
  cases s with
  | mk d => show String.append ⟨d⟩ ⟨[]⟩ = ⟨d⟩; simp [String.append]

theorem length_updateById (l : List Note) (tid : String) (nn : Note) :
    (updateById l tid nn).length = l.length := by
  induction l with
  | nil => rfl
  | cons n rest ih => by_cases h : n.id = tid <;> simp [updateById, h, ih]

theorem filter_eq_updateById (l : List Note) (tid : String) (nn : Note)
    (hid : nn.id = tid)
    (h1 : l.countP (fun n => decide (n.id = tid)) = 1) :
    (updateById l tid nn).filter (fun n => decide (n.id = tid)) = [nn] := by
  induction l with
  | nil => simp at h1
  | cons n rest ih =>
    by_cases h : n.id = tid
    · have hall : ∀ a ∈ rest, ¬ (a.id = tid) := by
        rw [List.countP_cons] at h1
        simp [h, List.countP_eq_zero] at h1
        exact h1
      have hnil : rest.filter (fun n => decide (n.id = tid)) = [] := by
        rw [List.filter_eq_nil_iff]
        intro a ha
        simpa using hall a ha
      simp [updateById, h, List.filter, hid, hnil]
    · have h1r : rest.countP (fun n => decide (n.id = tid)) = 1 := by
        rw [List.countP_cons] at h1
        simpa [h] using h1
      simp [updateById, h, List.filter, ih h1r]

theorem filter_ne_updateById (l : List Note) (tid : String) (nn : Note)
    (hid : nn.id = tid) :
    (updateById l tid nn).filter (fun n => decide ¬(n.id = tid)) =
      l.filter (fun n => decide ¬(n.id = tid)) := by
  induction l with
  | nil => rfl
  | cons n rest ih =>
    by_cases h : n.id = tid
    · simp [updateById, h, List.filter, hid]
    · simp only [updateById, if_neg h]
      simpa [List.filter, h] using ih

theorem renderNotesList_none_state (st : AppState) :
    (renderNotesList st none).1 = { st with notes := sortNotes st.notes } := by
  obtain ⟨ns, cn, ie, tf, cf, fv, ev, dv⟩ := st
  unfold renderNotesList
  by_cases h : ns.isEmpty
  · have h0 : ns = [] := List.isEmpty_iff.mp h
    subst h0
    simp [sortNotes, List.mergeSort_nil]
  · simp [h]

theorem renderNotesList_some_state (st : AppState) (l : List Note) :
    (renderNotesList st (some l)).1 = st := by
  unfold renderNotesList
  by_cases h : l.isEmpty <;> simp [h]

theorem renderNotesList_shown (st : AppState) (filtered : Option (List Note)) :
    (renderNotesList st filtered).2.1 = sortNotes (filtered.getD st.notes) := by
  unfold renderNotesList
  by_cases h : (filtered.getD st.notes).isEmpty
  · have h0 : filtered.getD st.notes = [] := List.isEmpty_iff.mp h
    simp [h0, sortNotes, List.mergeSort_nil]
  · simp [h]

theorem renderNotesList_items (st : AppState) (filtered : Option (List Note)) :
    (renderNotesList st filtered).2.2 =
      (sortNotes (filtered.getD st.notes)).map (renderItem st.currentNote) := by
  unfold renderNotesList
  by_cases h : (filtered.getD st.notes).isEmpty
  · have h0 : filtered.getD st.notes = [] := List.isEmpty_iff.mp h
    simp [h0, sortNotes, List.mergeSort_nil]
  · simp [h]

theorem saveNote_invalid (st : AppState) (silent : Bool) (resp : ServerResp)
    (h : st.titleField.trim = "" ∨ st.contentField.trim = "") :
    saveNote st silent resp =
      { state := st, shown := [], items := [], requests := [],
        notifs := if silent then [] else [.error "Title and content are required"] } := by
  unfold saveNote
  rw [if_pos h]

theorem saveNote_ok_state_some (st : AppState) (cur savedNote : Note) (silent : Bool)
    (hcur : st.currentNote = some cur)
    (ht : ¬ st.titleField.trim = "") (hc : ¬ st.contentField.trim = "") :
    (saveNote st silent (.ok savedNote)).state =
      { st with notes := sortNotes (updateById st.notes cur.id savedNote),
                currentNote := some savedNote, deleteBtnVisible := true } := by
  unfold saveNote
  rw [if_neg (by tauto)]
  simp only [hcur, renderNotesList_none_state]

theorem saveNote_ok_state_none (st : AppState) (savedNote : Note) (silent : Bool)
    (hcur : st.currentNote = none)
    (ht : ¬ st.titleField.trim = "") (hc : ¬ st.contentField.trim = "") :
    (saveNote st silent (.ok savedNote)).state =
      { st with notes := sortNotes (st.notes ++ [savedNote]),
                currentNote := some savedNote, deleteBtnVisible := true } := by
  unfold saveNote
  rw [if_neg (by tauto)]
  simp only [hcur, renderNotesList_none_state]

theorem deleteNote_ok_state (st : AppState) (cur : Note)
    (hcur : st.currentNote = some cur) :
    (deleteNote st true true).state =
      hideNoteEditor { st with
        notes := sortNotes (st.notes.filter (fun n => decide ¬(n.id = cur.id))) } := by
  unfold deleteNote
  simp only [hcur, renderNotesList_none_state]
  simp

/-- Demo note used by concrete witness states. -/
def noteA : Note := { id := "a", title := "t", content := "c", createdAt := 1, updatedAt := 1 }

/-- C5: with an empty (after trim) title or content, `saveNote` issues no
request, leaves the state unchanged, and shows a validation error exactly when
not silent (silent mode is a pure no-op). -/
theorem C5_save_empty_fields_no_request (st : AppState) (silent : Bool) (resp : ServerResp)
    (h : st.titleField.trim = "" ∨ st.contentField.trim = "") :
    (saveNote st silent resp).requests = [] ∧
    (saveNote st silent resp).state = st ∧
    (saveNote st silent resp).notifs =
      (if silent then [] else [Notif.error "Title and content are required"]) := by
  rw [saveNote_invalid st silent resp h]
  exact ⟨rfl, rfl, rfl⟩

/-- Witness state for C5: empty title, non-empty content. -/
def stC5 : AppState := { initialState with contentField := "body" }

unseal Substring.takeWhileAux Substring.takeRightWhileAux in
/-- C5 witness at a concrete state. -/
theorem C5_save_empty_fields_no_request_witness :
    (saveNote stC5 true ServerResp.fail).requests = [] ∧
    (saveNote stC5 true ServerResp.fail).state = stC5 ∧
    (saveNote stC5 true ServerResp.fail).notifs =
      (if true then [] else [Notif.error "Title and content are required"]) :=
  C5_save_empty_fields_no_request stC5 true ServerResp.fail (Or.inl rfl)

unseal List.merge List.mergeSort in
/-- C6: contrary to the claim, a non-success HTTP status is not treated as a
failure by `loadNotes`: with `ok = false` and a body that parses as a note
list, the parsed body is stored as the collection and no error notification
is surfaced.  A rejected fetch does keep the collection empty and surfaces the
error. -/
theorem C6_load_nonok_parsed_body_treated_as_success :
    (loadNotes initialState (.response false (some [noteA]))).state.notes = [noteA] ∧
    (loadNotes initialState (.response false (some [noteA]))).notifs = [] ∧
    (loadNotes initialState .rejected).state = initialState ∧
    (loadNotes initialState .rejected).notifs = [.error "Failed to load notes"] :=
  ⟨rfl, rfl, rfl, rfl⟩

/-- C8: `cancelEdit` with a bound note restores the editor fields to the
note's stored values and keeps the editor open in the same mode; with no bound
note (Creating) it closes the editor and shows the empty placeholder. -/
theorem C8_cancel_edit (st : AppState) (n : Note) :
    (st.currentNote = some n → st.isEditing = true →
      (cancelEdit st).state.titleField = n.title ∧
      (cancelEdit st).state.contentField = n.content ∧
      (cancelEdit st).state.mode = .editing n ∧
      (cancelEdit st).state.formVisible = st.formVisible ∧
      (cancelEdit st).state.emptyVisible = st.emptyVisible) ∧
    (st.currentNote = none →
      (cancelEdit st).state.mode = .closed ∧
      (cancelEdit st).state.emptyVisible = true ∧
      (cancelEdit st).state.formVisible = false) := by
  constructor
  · intro hcur hedit
    simp [cancelEdit, hcur, populateEditor, noopResult, AppState.mode, hedit]
  · intro hcur
    simp [cancelEdit, hcur, hideNoteEditor, noopResult, AppState.mode]

/-- Witness state for C8: editing `noteA` with unsaved text in the fields. -/
def stC8 : AppState :=
  { notes := [noteA], currentNote := some noteA, isEditing := true,
    titleField := "unsaved title", contentField := "unsaved content",
    formVisible := true, emptyVisible := false, deleteBtnVisible := true }

/-- C8 witness: reverting while editing restores the stored values; cancel
while creating closes the editor. -/
theorem C8_cancel_edit_witness :
    ((cancelEdit stC8).state.titleField = noteA.title ∧
     (cancelEdit stC8).state.contentField = noteA.content ∧
     (cancelEdit stC8).state.mode = .editing noteA ∧
     (cancelEdit stC8).state.formVisible = stC8.formVisible ∧
     (cancelEdit stC8).state.emptyVisible = stC8.emptyVisible) ∧
    ((cancelEdit (createNewNote stC8).state).state.mode = .closed ∧
     (cancelEdit (createNewNote stC8).state).state.emptyVisible = true ∧
     (cancelEdit (createNewNote stC8).state).state.formVisible = false) :=
  ⟨(C8_cancel_edit stC8 noteA).1 rfl rfl,
   (C8_cancel_edit (createNewNote stC8).state noteA).2 rfl⟩

/-- C9: each rendered item is produced by `renderItem` from the rendered note
sequence, and the preview is the escaped full content when the content has at
most 100 characters, and the escaped first 100 characters followed by the
ellipsis marker when it is strictly longer. -/
theorem C9_preview_truncation (st : AppState) (filtered : Option (List Note))
    (cur : Option Note) (n : Note) :
    ((renderNotesList st filtered).2.2 =
      ((renderNotesList st filtered).2.1).map (renderItem st.currentNote)) ∧
    (n.content.length ≤ 100 →
      (renderItem cur n).previewHtml = escapeHtml n.content) ∧
    (100 < n.content.length →
      (renderItem cur n).previewHtml = escapeHtml ⟨n.content.data.take 100⟩ ++ "...") := by
  refine ⟨?_, ?_, ?_⟩
  · rw [renderNotesList_items, renderNotesList_shown]
  · intro h
    have h2 : ¬ (100 < n.content.length) := not_lt.mpr h
    have h3 : n.content.data.take 100 = n.content.data := List.take_of_length_le h
    simp [renderItem, h2, h3, str_append_empty]
  · intro h
    simp [renderItem, h]

/-- A 120-character content string. -/
def longContent : String :=
  "0123456789012345678901234567890123456789012345678901234567890123456789012345678901234567890123456789aaaaaaaaaaaaaaaaaaaa"

/-- Note with 120 characters of content. -/
def noteLong : Note :=
  { id := "L", title := "long", content := longContent, createdAt := 2, updatedAt := 2 }

/-- C9 witness: a 1-character content is previewed in full with no ellipsis;
a 120-character content is previewed as its first 100 characters plus the
ellipsis marker. -/
theorem C9_preview_truncation_witness :
    (renderItem none noteA).previewHtml = escapeHtml noteA.content ∧
    (renderItem none noteLong).previewHtml =
      escapeHtml ⟨noteLong.content.data.take 100⟩ ++ "..." :=
  ⟨(C9_preview_truncation initialState none none noteA).2.1 (by decide),
   (C9_preview_truncation initialState none none noteLong).2.2 (by decide)⟩

theorem length_filter_not_add_countP (l : List Note) (X : String) :
    (l.filter (fun n => decide ¬(n.id = X))).length +
      l.countP (fun n => decide (n.id = X)) = l.length := by
  induction l with
  | nil => rfl
  | cons n rest ih =>
    by_cases h : n.id = X
    · simp [List.filter, List.countP_cons, h] at ih ⊢
      omega
    · simp [List.filter, List.countP_cons, h] at ih ⊢
      omega

/-- C1: a successful save while editing a note with unique id replaces exactly
that note with the server's payload, and the editor ends bound to the
returned note. -/
theorem C1_save_while_editing (st : AppState) (cur savedNote : Note) (silent : Bool)
    (hcur : st.currentNote = some cur) (hedit : st.isEditing = true)
    (hid : savedNote.id = cur.id)
    (huniq : st.notes.countP (fun n => decide (n.id = cur.id)) = 1)
    (ht : ¬ st.titleField.trim = "") (hc : ¬ st.contentField.trim = "") :
    (saveNote st silent (.ok savedNote)).state.notes.filter
      (fun n => decide (n.id = cur.id)) = [savedNote] ∧
    (saveNote st silent (.ok savedNote)).state.mode = .editing savedNote := by
  rw [saveNote_ok_state_some st cur savedNote silent hcur ht hc]
  constructor
  · have hperm : (sortNotes (updateById st.notes cur.id savedNote)).Perm
        (updateById st.notes cur.id savedNote) := List.mergeSort_perm _ _
    have h2 := hperm.filter (fun n => decide (n.id = cur.id))
    rw [filter_eq_updateById st.notes cur.id savedNote hid huniq] at h2
    exact List.perm_singleton.mp h2
  · simp [AppState.mode, hedit]

/-- The server's echo for the C1 witness save. -/
def noteA2 : Note :=
  { id := "a", title := "unsaved title", content := "unsaved content",
    createdAt := 1, updatedAt := 3 }

unseal Substring.takeWhileAux Substring.takeRightWhileAux in
/-- C1 witness at a concrete editing state. -/
theorem C1_save_while_editing_witness :
    (saveNote stC8 false (.ok noteA2)).state.notes.filter
      (fun n => decide (n.id = noteA.id)) = [noteA2] ∧
    (saveNote stC8 false (.ok noteA2)).state.mode = .editing noteA2 :=
  C1_save_while_editing stC8 noteA noteA2 false rfl rfl rfl (by decide)
    (by show ¬("unsaved title".trim) = ""
        rw [show ("unsaved title".trim) = "unsaved title" from rfl]; decide)
    (by show ¬("unsaved content".trim) = ""
        rw [show ("unsaved content".trim) = "unsaved content" from rfl]; decide)

/-- C10: a successful save whose payload keeps the bound id leaves every note
with a different id unchanged (as a multiset), and a successful delete leaves
exactly the notes with a different id, removing one note when the bound id is
unique. -/
theorem C10_save_delete_frame (st : AppState) (savedNote cur : Note) (silent : Bool)
    (hmatch : ∀ c, st.currentNote = some c → savedNote.id = c.id) :
    (((saveNote st silent (.ok savedNote)).state.notes.filter
        (fun n => decide ¬(n.id = savedNote.id))).Perm
      (st.notes.filter (fun n => decide ¬(n.id = savedNote.id)))) ∧
    (st.currentNote = some cur →
      (((deleteNote st true true).state.notes).Perm
        (st.notes.filter (fun n => decide ¬(n.id = cur.id))) ∧
       (st.notes.countP (fun n => decide (n.id = cur.id)) = 1 →
         (deleteNote st true true).state.notes.length + 1 = st.notes.length))) := by
  constructor
  · by_cases hv : st.titleField.trim = "" ∨ st.contentField.trim = ""
    · rw [saveNote_invalid st silent (.ok savedNote) hv]
    · push_neg at hv
      obtain ⟨ht, hc⟩ := hv
      cases hcur : st.currentNote with
      | none =>
        rw [saveNote_ok_state_none st savedNote silent hcur ht hc]
        have hperm := (List.mergeSort_perm (st.notes ++ [savedNote]) noteLe).filter
          (fun n => decide ¬(n.id = savedNote.id))
        have heq : (st.notes ++ [savedNote]).filter
            (fun n => decide ¬(n.id = savedNote.id)) =
            st.notes.filter (fun n => decide ¬(n.id = savedNote.id)) := by
          simp [List.filter_append, List.filter]
        rw [heq] at hperm
        exact hperm
      | some c =>
        have hid := hmatch c hcur
        rw [saveNote_ok_state_some st c savedNote silent hcur ht hc, hid]
        have hperm := (List.mergeSort_perm (updateById st.notes c.id savedNote) noteLe).filter
          (fun n => decide ¬(n.id = c.id))
        rw [filter_ne_updateById st.notes c.id savedNote hid] at hperm
        exact hperm
  · intro hcur
    rw [deleteNote_ok_state st cur hcur]
    have hperm : (sortNotes (st.notes.filter (fun n => decide ¬(n.id = cur.id)))).Perm
        (st.notes.filter (fun n => decide ¬(n.id = cur.id))) := List.mergeSort_perm _ _
    constructor
    · simpa [hideNoteEditor] using hperm
    · intro huniq
      have hlen := hperm.length_eq
      have hcount := length_filter_not_add_countP st.notes cur.id
      simp only [hideNoteEditor]
      omega

unseal List.merge List.mergeSort Substring.takeWhileAux Substring.takeRightWhileAux in
/-- C10 witness at a concrete editing state. -/
theorem C10_save_delete_frame_witness :
    (((saveNote stC8 false (.ok noteA2)).state.notes.filter
        (fun n => decide ¬(n.id = noteA2.id))).Perm
      (stC8.notes.filter (fun n => decide ¬(n.id = noteA2.id)))) ∧
    (((deleteNote stC8 true true).state.notes).Perm
        (stC8.notes.filter (fun n => decide ¬(n.id = noteA.id))) ∧
     (stC8.notes.countP (fun n => decide (n.id = noteA.id)) = 1 →
       (deleteNote stC8 true true).state.notes.length + 1 = stC8.notes.length)) :=
  ⟨(C10_save_delete_frame stC8 noteA2 noteA false
      (fun c hc => by
        have h : noteA = c := by simpa [stC8] using hc
        rw [← h]
        rfl)).1,
   (C10_save_delete_frame stC8 noteA2 noteA false
      (fun c hc => by
        have h : noteA = c := by simpa [stC8] using hc
        rw [← h]
        rfl)).2 rfl⟩

/-- C3: with the code's state well-formed (a bound note implies the editing
flag), delete is a no-op whenever the editor is not in Editing state; and a
confirmed, successful delete while editing `cur` leaves no note with `cur`'s
id and closes the editor. -/
theorem C3_delete_note (st : AppState) (confirmOk respOk : Bool)
    (hwf : st.currentNote.isSome = true → st.isEditing = true) :
    ((∀ n, st.mode ≠ EditorMode.editing n) →
      deleteNote st confirmOk respOk = noopResult st) ∧
    (∀ cur, st.currentNote = some cur → confirmOk = true → respOk = true →
      ((∀ n ∈ (deleteNote st confirmOk respOk).state.notes, ¬ n.id = cur.id) ∧
       (deleteNote st confirmOk respOk).state.mode = EditorMode.closed)) := by
  constructor
  · intro hne
    have hcur : st.currentNote = none := by
      cases hcurc : st.currentNote with
      | none => rfl
      | some c =>
        have hedit : st.isEditing = true := hwf (by simp [hcurc])
        exact absurd (by simp [AppState.mode, hcurc, hedit]) (hne c)
    simp [deleteNote, hcur]
  · intro cur hcur hconf hresp
    subst hconf
    subst hresp
    rw [deleteNote_ok_state st cur hcur]
    constructor
    · intro n hn
      simp only [hideNoteEditor] at hn
      simp only [sortNotes, List.mem_mergeSort, List.mem_filter] at hn
      simpa using hn.2
    · simp [hideNoteEditor, AppState.mode]

/-- C3 witness: delete in a Creating state is a no-op; a confirmed successful
delete while editing `noteA` empties the collection of its id and closes. -/
theorem C3_delete_note_witness :
    (deleteNote (createNewNote stC8).state true true =
      noopResult (createNewNote stC8).state) ∧
    ((∀ n ∈ (deleteNote stC8 true true).state.notes, ¬ n.id = noteA.id) ∧
     (deleteNote stC8 true true).state.mode = EditorMode.closed) :=
  ⟨(C3_delete_note (createNewNote stC8).state true true
      (fun h => by simp [createNewNote, clearEditor, showNoteEditor, noopResult] at h)).1
      (fun n h => by
        simp [AppState.mode, createNewNote, clearEditor, showNoteEditor, noopResult] at h),
   (C3_delete_note stC8 true true (fun _ => rfl)).2 noteA rfl rfl rfl⟩

/-- C7: on a state whose note list is already sorted (which every rendered
state is), `searchNotes` issues no request and leaves the entire client state
unchanged for every query. -/
theorem C7_search_pure (st : AppState) (q : String)
    (hsorted : st.notes.Pairwise (fun a b => b.updatedAt ≤ a.updatedAt)) :
    (searchNotes st q).state = st ∧ (searchNotes st q).requests = [] := by
  have hs : sortNotes st.notes = st.notes := by
    apply List.mergeSort_of_sorted
    exact hsorted.imp (fun h => by simp [noteLe]; exact h)
  unfold searchNotes
  by_cases hq : q.trim = ""
  · rw [if_pos hq]
    refine ⟨?_, rfl⟩
    show (renderNotesList st none).1 = st
    rw [renderNotesList_none_state, hs]
  · rw [if_neg hq]
    exact ⟨renderNotesList_some_state st _, rfl⟩

unseal Substring.takeWhileAux Substring.takeRightWhileAux in
/-- C7 witness at a concrete sorted state. -/
theorem C7_search_pure_witness :
    (searchNotes stC8 "t").state = stC8 ∧ (searchNotes stC8 "t").requests = [] :=
  C7_search_pure stC8 "t" (by simp [stC8])

/-- C4: a blank query renders a permutation of the full collection sorted by
`updatedAt` descending; a non-blank query renders exactly the notes whose
title or content contains the query case-insensitively, in the same sort
order. -/
theorem C4_search_filter (st : AppState) (q : String) :
    (q.trim = "" →
      ((searchNotes st q).shown).Perm st.notes ∧
      ((searchNotes st q).shown).Pairwise (fun a b => b.updatedAt ≤ a.updatedAt)) ∧
    (¬ q.trim = "" →
      (∀ n, n ∈ (searchNotes st q).shown ↔
        (n ∈ st.notes ∧
          (q.toLower.toList <:+: n.title.toLower.toList ∨
           q.toLower.toList <:+: n.content.toLower.toList))) ∧
      ((searchNotes st q).shown).Perm
        (st.notes.filter (fun n => includesCI n.title q || includesCI n.content q)) ∧
      ((searchNotes st q).shown).Pairwise (fun a b => b.updatedAt ≤ a.updatedAt)) := by
  have htrans : ∀ (a b c : Note), noteLe a b → noteLe b c → noteLe a c := by
    intro a b c h1 h2
    simp only [noteLe, decide_eq_true_eq] at h1 h2 ⊢
    omega
  have htotal : ∀ (a b : Note), noteLe a b || noteLe b a := by
    intro a b
    simp only [noteLe, Bool.or_eq_true, decide_eq_true_eq]
    omega
  have hpair : ∀ l : List Note,
      (sortNotes l).Pairwise (fun a b => b.updatedAt ≤ a.updatedAt) := by
    intro l
    have h := @List.sorted_mergeSort Note noteLe htrans htotal l
    exact h.imp (fun h2 => by simpa [noteLe] using h2)
  constructor
  · intro hq
    have hshown : (searchNotes st q).shown = sortNotes st.notes := by
      unfold searchNotes
      rw [if_pos hq]
      exact renderNotesList_shown st none
    rw [hshown]
    exact ⟨List.mergeSort_perm _ _, hpair _⟩
  · intro hq
    have hshown : (searchNotes st q).shown =
        sortNotes (st.notes.filter
          (fun n => includesCI n.title q || includesCI n.content q)) := by
      unfold searchNotes
      rw [if_neg hq]
      exact renderNotesList_shown st _
    rw [hshown]
    refine ⟨?_, List.mergeSort_perm _ _, hpair _⟩
    intro n
    rw [sortNotes, List.mem_mergeSort, List.mem_filter]
    simp [includesCI]

/-- Note used by the search witness. -/
def noteW : Note :=
  { id := "n1", title := "Hello", content := "World", createdAt := 5, updatedAt := 5 }

/-- Witness state for the search claims. -/
def stW : AppState := { initialState with notes := [noteW] }

unseal Substring.takeWhileAux Substring.takeRightWhileAux in
/-- C4 witness: the blank query and the case-insensitive query "ORL" on a
one-note collection. -/
theorem C4_search_filter_witness :
    (((searchNotes stW "").shown).Perm stW.notes ∧
     ((searchNotes stW "").shown).Pairwise (fun a b => b.updatedAt ≤ a.updatedAt)) ∧
    ((∀ n, n ∈ (searchNotes stW "ORL").shown ↔
        (n ∈ stW.notes ∧
          ("ORL".toLower.toList <:+: n.title.toLower.toList ∨
           "ORL".toLower.toList <:+: n.content.toLower.toList))) ∧
     ((searchNotes stW "ORL").shown).Perm
        (stW.notes.filter
          (fun n => includesCI n.title "ORL" || includesCI n.content "ORL")) ∧
     ((searchNotes stW "ORL").shown).Pairwise (fun a b => b.updatedAt ≤ a.updatedAt)) :=
  ⟨(C4_search_filter stW "").1 rfl,
   (C4_search_filter stW "ORL").2 (by
      show ¬("ORL".trim) = ""
      rw [show ("ORL".trim) = "ORL" from rfl]
      decide)⟩

/-- C2 (amended): every title or content edit overwrites the single timer
slot with a fresh 2-second timer and logs no save call; when the timer
elapses it is cleared and, if the editor is then in Editing state, exactly
one silent save call with the field values current at that moment is logged;
if the editor is not then in Editing state, only the timer slot changes. -/
theorem C2_debounce (sys : SysState) (s : String) (resp : ServerResp) :
    ((step sys (.editTitle s)).timer = some 2 ∧
     (step sys (.editContent s)).timer = some 2 ∧
     (step sys (.editTitle s)).calls = sys.calls ∧
     (step sys (.editContent s)).calls = sys.calls) ∧
    (sys.timer = some 1 → sys.app.isEditing = true →
      sys.app.currentNote.isSome = true →
      ((step sys (.tick resp)).calls = sys.calls ++
        [{ silent := true, title := sys.app.titleField,
           content := sys.app.contentField }] ∧
       (step sys (.tick resp)).timer = none)) ∧
    (sys.timer = some 1 →
      ¬(sys.app.isEditing = true ∧ sys.app.currentNote.isSome = true) →
      step sys (.tick resp) = { sys with timer := none }) := by
  refine ⟨⟨rfl, rfl, rfl, rfl⟩, ?_, ?_⟩
  · intro ht he hs
    constructor <;> simp [step, ht, he, hs]
  · intro ht hne
    have hb : (sys.app.isEditing && sys.app.currentNote.isSome) = false := by
      cases h1 : sys.app.isEditing <;> cases h2 : sys.app.currentNote.isSome <;>
        simp_all
    simp [step, ht, hb]

/-- System state for the C2 witness: editing `noteA` with the timer one tick
from firing. -/
def sysC2 : SysState := { app := stC8, timer := some 1, calls := [] }

/-- System state for the C2 witness: creating (no bound note) with the timer
one tick from firing. -/
def sysC2c : SysState :=
  { app := (createNewNote stC8).state, timer := some 1, calls := [] }

unseal List.merge List.mergeSort Substring.takeWhileAux Substring.takeRightWhileAux in
/-- C2 witness: an edit rearms the slot to 2 seconds; an elapse while Editing
logs exactly one silent call with the current fields; an elapse while
Creating changes only the timer slot. -/
theorem C2_debounce_witness :
    ((step sysC2 (.editTitle "x")).timer = some 2 ∧
     (step sysC2 (.editContent "x")).timer = some 2 ∧
     (step sysC2 (.editTitle "x")).calls = sysC2.calls ∧
     (step sysC2 (.editContent "x")).calls = sysC2.calls) ∧
    ((step sysC2 (.tick .fail)).calls = sysC2.calls ++
        [{ silent := true, title := sysC2.app.titleField,
           content := sysC2.app.contentField }] ∧
     (step sysC2 (.tick .fail)).timer = none) ∧
    (step sysC2c (.tick .fail) = { sysC2c with timer := none }) :=
  ⟨(C2_debounce sysC2 "x" .fail).1,
   (C2_debounce sysC2 "x" .fail).2.1 rfl rfl rfl,
   (C2_debounce sysC2c "x" .fail).2.2 rfl (by decide)⟩

unseal List.merge List.mergeSort Substring.takeWhileAux Substring.takeRightWhileAux String.mapAux in
/-- C2 counterexample to the claim as stated: in the trace below both edits
happen while the editor is Creating (the states in which they occur are shown
to be Creating), yet because a manual save completes before the pending timer
fires, the timer then finds the editor Editing and exactly one silent
auto-save call is made — so an edit made while Creating did lead to an
auto-save Save call. -/
theorem C2_creating_edit_autosave_counterexample :
    ((runTrace initialSys [.clickNew]).app.mode = .creating) ∧
    ((runTrace initialSys [.clickNew, .editTitle "Hello"]).app.mode = .creating) ∧
    ((runTrace initialSys
        [.clickNew, .editTitle "Hello", .editContent "World"]).app.mode = .creating) ∧
    ((runTrace initialSys
        [.clickNew, .editTitle "Hello", .editContent "World",
         .clickSave (.ok noteW), .tick (.ok noteW), .tick (.ok noteW)]).calls.filter
        (fun c => c.silent) =
      [{ silent := true, title := "Hello", content := "World" }]) :=
  ⟨rfl, rfl, rfl, rfl⟩
